import Mathlib

/-!
Verification development for the QuickBot loan-origination core:
the underwriting decision engine, conversation state manager,
intelligent agent router and agent orchestrator, shallowly embedded
from the Python sources (app/agents/underwriting_agent.py,
app/services/conversation_state_manager.py,
app/services/intelligent_agent_router.py,
app/services/agent_orchestrator.py, app/models/schemas.py).

Numeric fields are modelled over ℚ (exact real arithmetic in place of
Python floats); machine clocks are explicit integer parameters; Python
exceptions are modelled as `Option`/missing-key lookups.
-/

namespace QuickBot

/-- Chat stages, from `ChatStage` in app/models/schemas.py. -/
inductive ChatStage where
  | greeting
  | sales
  | verification
  | escalated
  | underwriting
  | salarySlip
  | decision
  | approved
  | rejected
  | completed
deriving DecidableEq, Repr

/-- Loan purposes, from `LoanPurpose` in app/models/schemas.py. -/
inductive LoanPurpose where
  | personal
  | homeImprovement
  | education
  | medical
  | business
  | wedding
  | travel
  | debtConsolidation
deriving DecidableEq, Repr

/-- The interest-rate table `INTEREST_RATE_BY_PURPOSE` in
app/agents/underwriting_agent.py, as an association list mirroring the
Python dict (insertion order preserved). -/
def interestRateByPurpose : List (LoanPurpose × ℚ) :=
  [ (.personal, 12.63)
  , (.homeImprovement, 9.2)
  , (.education, 8.3)
  , (.medical, 9.0)
  , (.business, 15.0)
  , (.wedding, 12.63)
  , (.travel, 12.63)
  , (.debtConsolidation, 17.0) ]

/-- Association-list lookup used throughout for Python `dict` access. -/
def alistGet {α β : Type} [DecidableEq α] : List (α × β) → α → Option β
  | [], _ => none
  | (k, v) :: rest, key => if k = key then some v else alistGet rest key

/-- `INTEREST_RATE_BY_PURPOSE.get(purpose, base_rate)` from
underwriting_agent.py line 74. -/
def rateFor (purpose : LoanPurpose) (baseRate : ℚ) : ℚ :=
  (alistGet interestRateByPurpose purpose).getD baseRate

/-- The reducing-balance annuity formula
`EMI = P * r * (1+r)^n / ((1+r)^n - 1)`
as computed on underwriting_agent.py line 77, with `r` the monthly rate. -/
def emiFormula (P r : ℚ) (n : ℕ) : ℚ :=
  P * r * (1 + r) ^ n / ((1 + r) ^ n - 1)

/-- Inversion of the annuity formula,
`P = EMI * ((1+r)^n - 1) / (r * (1+r)^n)`,
as computed for `max_loan_amount` on underwriting_agent.py line 439. -/
def invEmiFormula (E r : ℚ) (n : ℕ) : ℚ :=
  E * ((1 + r) ^ n - 1) / (r * (1 + r) ^ n)

/-- The data each rejection/approval reason string of
underwriting_agent.py interpolates, as a typed reason. -/
inductive DecisionReason where
  | belowMinimumScore (score : ℤ)
  | withinPreApprovedLimit (limit : ℚ)
  | salarySlipRequired
  | exceedsMaxLimit (amount ceiling : ℚ)
  | approvedAfterSalaryVerification (emi salary : ℚ)
  | emiExceedsHalfSalary (emi salary maxAllowedEmi : ℚ)
deriving DecidableEq, Repr

/-- `UnderwritingResult` from app/models/schemas.py. -/
structure UnderwritingResult where
  approved : Bool
  loanAmount : ℚ
  emi : ℚ
  interestRate : ℚ
  tenure : ℕ
  reason : DecisionReason
  requiresSalarySlip : Bool
deriving DecidableEq, Repr

/-- `UnderwritingAgent._evaluate_loan` (underwriting_agent.py lines
52-112): a pure function of the loan amount, tenure, purpose, credit
score, pre-approved limit and base rate.  Rule 1: score below 700 is
rejected with EMI 0 and the base rate.  Otherwise the per-purpose rate
and the EMI are computed; rule 2 approves within the pre-approved
limit, rule 3 flags a salary slip up to twice the limit, rule 4
rejects above twice the limit. -/
def evaluateLoan (loanAmount : ℚ) (tenure : ℕ) (purpose : LoanPurpose)
    (creditScore : ℤ) (preApprovedLimit : ℚ) (baseRate : ℚ) : UnderwritingResult :=
  if creditScore < 700 then
    { approved := false
      loanAmount := loanAmount
      emi := 0
      interestRate := baseRate
      tenure := tenure
      reason := .belowMinimumScore creditScore
      requiresSalarySlip := false }
  else
    let interestRate := rateFor purpose baseRate
    let monthlyRate := interestRate / (12 * 100)
    let emi := loanAmount * monthlyRate * (1 + monthlyRate) ^ tenure /
      ((1 + monthlyRate) ^ tenure - 1)
    if loanAmount ≤ preApprovedLimit then
      { approved := true
        loanAmount := loanAmount
        emi := emi
        interestRate := interestRate
        tenure := tenure
        reason := .withinPreApprovedLimit preApprovedLimit
        requiresSalarySlip := false }
    else if loanAmount ≤ 2 * preApprovedLimit then
      { approved := false
        loanAmount := loanAmount
        emi := emi
        interestRate := interestRate
        tenure := tenure
        reason := .salarySlipRequired
        requiresSalarySlip := true }
    else
      { approved := false
        loanAmount := loanAmount
        emi := emi
        interestRate := interestRate
        tenure := tenure
        reason := .exceedsMaxLimit loanAmount (2 * preApprovedLimit)
        requiresSalarySlip := false }

/-- Outcome of the salary-verification second pass: the (mutated)
underwriting result, the stage of the reply, and the alternative loan
amount surfaced in the reply text on rejection. -/
structure SalaryVerificationOutcome where
  result : UnderwritingResult
  stage : ChatStage
  final : Bool
  suggestedAmount : Option ℚ
deriving DecidableEq, Repr

/-- `UnderwritingAgent.process_salary_verification` (underwriting_agent.py
lines 319-474), decision logic only (PDF generation, database writes and
the reply prose are presentation/IO around it).  Approves when the EMI is
at most half the salary; otherwise rejects and computes the maximum loan
amount whose EMI at the same rate and tenure is half the salary, which
the reply surfaces as an alternative suggestion. -/
def processSalaryVerification (res : UnderwritingResult) (salary : ℚ) :
    SalaryVerificationOutcome :=
  let maxAllowedEmi := salary * 0.5
  if res.emi ≤ maxAllowedEmi then
    { result := { res with
        approved := true
        reason := .approvedAfterSalaryVerification res.emi salary }
      stage := .completed
      final := true
      suggestedAmount := none }
  else
    let r := res.interestRate / (12 * 100)
    let maxLoanAmount := maxAllowedEmi * ((1 + r) ^ res.tenure - 1) /
      (r * (1 + r) ^ res.tenure)
    { result := { res with
        approved := false
        reason := .emiExceedsHalfSalary res.emi salary maxAllowedEmi }
      stage := .completed
      final := true
      suggestedAmount := some maxLoanAmount }

/-! ### Strings, dictionaries and shared context model -/

/-- Whether the second list is an initial segment of the first
(helper for Python substring tests). -/
def startsWithChars : List Char → List Char → Bool
  | [], _ => true
  | _ :: _, [] => false
  | a :: as, b :: bs => a == b && startsWithChars as bs

/-- Whether `pat` occurs as a contiguous run inside the list. -/
def containsChars (pat : List Char) : List Char → Bool
  | [] => startsWithChars pat []
  | c :: rest => startsWithChars pat (c :: rest) || containsChars pat rest

/-- Python `pat in s` on strings. -/
def strContains (s pat : String) : Bool := containsChars pat.data s.data

/-- Python `l[-n:]`. -/
def lastN {α : Type} (n : ℕ) (l : List α) : List α := l.drop (l.length - n)

/-- Update a key in an association list the way Python dict assignment
does: replace in place when present, append when absent. -/
def alistSet {α β : Type} [DecidableEq α] : List (α × β) → α → β → List (α × β)
  | [], k, v => [(k, v)]
  | (k', v') :: rest, k, v =>
      if k' = k then (k, v) :: rest else (k', v') :: alistSet rest k v

/-- Remove a key from an association list (Python `del d[k]`). -/
def alistRemove {α β : Type} [DecidableEq α] : List (α × β) → α → List (α × β)
  | [], _ => []
  | (k, v) :: rest, key => if k = key then rest else (k, v) :: alistRemove rest key

/-- `ConversationState` from conversation_state_manager.py. -/
inductive ConversationState where
  | active
  | paused
  | completed
  | escalated
  | abandoned
  | error
deriving DecidableEq, Repr

/-- `StateTransition` from conversation_state_manager.py. -/
inductive StateTransition where
  | forward
  | backward
  | jump
  | restart
  | escalate
  | pause
  | resume
deriving DecidableEq, Repr

/-- `RoutingStrategy` from intelligent_agent_router.py. -/
inductive RoutingStrategy where
  | performanceBased
  | loadBalanced
  | contextAware
  | hybrid
  | machineLearning
deriving DecidableEq, Repr

/-- The dict produced by `AgentOrchestrator._analyze_conversation_flow`:
the short form (history shorter than 2) carries only the first three
keys, the full form also carries responsiveness and length. -/
structure FlowAnalysis where
  stage : String
  complexity : String
  engagement : String
  userResponsiveness : Option ℚ
  conversationLength : Option ℕ
deriving DecidableEq, Repr

/-- The values stored in the free-form per-conversation metadata dict
(typed by the finitely many shapes the code writes). -/
inductive MVal where
  | mState (s : ConversationState)
  | mStr (s : String)
  | mTime (t : ℤ)
  | mNat (n : ℕ)
  | mQ (q : ℚ)
  | mBool (b : Bool)
  | mStrList (l : List String)
  | mQList (l : List ℚ)
  | mScores (l : List (String × ℚ))
  | mFlow (f : FlowAnalysis)
  | mRoutingInfo (agent : String) (confidence : ℚ) (strategy : RoutingStrategy)
  | mOrchInfo (agentsUsed : List String) (confidenceScores : List (String × ℚ))
      (processingTime : ℤ)
deriving DecidableEq, Repr

/-- The free-form metadata map of a conversation context. -/
abbrev Metadata := List (String × MVal)

/-- Natural-number metadata entry with the dict-default 0 (contexts
created by `initialize_conversation` always carry the counters this is
used for). -/
def mdNatD (m : Metadata) (k : String) : ℕ :=
  match alistGet m k with
  | some (.mNat n) => n
  | _ => 0

/-- String-list metadata entry with the dict-default empty list. -/
def mdStrListD (m : Metadata) (k : String) : List String :=
  match alistGet m k with
  | some (.mStrList l) => l
  | _ => []

/-- Scores metadata entry with the dict-default empty dict. -/
def mdScoresD (m : Metadata) (k : String) : List (String × ℚ) :=
  match alistGet m k with
  | some (.mScores l) => l
  | _ => []

/-- `LoanRequest` from app/models/schemas.py (fields optional until
captured). -/
structure LoanRequest where
  amount : Option ℚ
  tenure : Option ℕ
  purpose : Option LoanPurpose
deriving DecidableEq, Repr

/-- One entry of a conversation history list. -/
structure HistoryMessage where
  sender : String
  message : String
deriving DecidableEq, Repr

/-- `ChatResponse` from app/models/schemas.py. -/
structure ChatResponse where
  sessionId : String
  message : String
  stage : ChatStage
  requiresInput : Bool
  options : Option (List String)
  fileUpload : Bool
  final : Bool
  metadata : Option Metadata
deriving DecidableEq, Repr

/-- `ConversationContext` from app/models/schemas.py.  The Python
`metadata` field is `Optional[Dict]`; `None` and the empty dict behave
identically in every read the core performs, so both are the empty
list here. -/
structure ConversationContext where
  sessionId : String
  customerPhone : Option String
  customerData : List (String × String)
  loanRequest : Option LoanRequest
  verificationStatus : Option Bool
  creditScore : Option ℤ
  preApprovedLimit : Option ℚ
  underwritingResult : Option UnderwritingResult
  salarySlipUploaded : Option Bool
  conversationHistory : List HistoryMessage
  currentStage : ChatStage
  metadata : Metadata
deriving DecidableEq, Repr

/-- Python truthiness of the optional phone string (`None` and the
empty string are falsy). -/
def isFalsyPhone : Option String → Bool
  | none => true
  | some s => s.isEmpty

/-! ### Conversation state manager
(app/services/conversation_state_manager.py) -/

/-- `natural_flow` from `_setup_transition_rules`. -/
def naturalFlow : ChatStage → Option ChatStage
  | .greeting => some .sales
  | .sales => some .verification
  | .verification => some .underwriting
  | .underwriting => some .approved
  | _ => none

/-- `allowed_jumps` from `_setup_transition_rules`. -/
def allowedJumps : ChatStage → List ChatStage
  | .greeting => [.sales, .verification]
  | .sales => [.verification, .underwriting]
  | .verification => [.sales, .underwriting]
  | .underwriting => [.sales, .verification]
  | _ => []

/-- `backward_allowed` from `_setup_transition_rules`. -/
def backwardAllowed : ChatStage → List ChatStage
  | .sales => [.greeting]
  | .verification => [.sales, .greeting]
  | .underwriting => [.verification, .sales]
  | .approved => [.underwriting]
  | _ => []

/-- `escalation_triggers["user_frustration"]`. -/
def userFrustrationWords : List String :=
  ["angry", "frustrated", "upset", "terrible", "awful"]

/-- The context fields named by `required_context` in
`_setup_validation_rules`. -/
inductive ContextField where
  | customerIntent
  | customerPhone
  | loanRequest
  | verificationStatus
deriving DecidableEq, Repr

/-- `required_context` per target stage (stages outside the
validation-rules dict have no requirements). -/
def requiredContext : ChatStage → List ContextField
  | .greeting => []
  | .sales => [.customerIntent]
  | .verification => [.customerPhone, .loanRequest]
  | .underwriting => [.customerPhone, .loanRequest, .verificationStatus]
  | _ => []

/-- `min_messages` per target stage. -/
def minMessages : ChatStage → ℕ
  | .greeting => 1
  | .sales => 2
  | .verification => 3
  | .underwriting => 4
  | _ => 0

/-- `validation_functions` per target stage. -/
def validationFunctions : ChatStage → List String
  | .greeting => ["validate_session_start"]
  | .sales => ["validate_customer_engagement"]
  | .verification => ["validate_loan_requirements", "validate_customer_contact"]
  | .underwriting => ["validate_verification_complete", "validate_eligibility_data"]
  | _ => []

/-- The `not hasattr(context, req) or getattr(context, req) is None`
test of `_validate_stage_requirements`.  `customer_intent` is not a
declared field of the pydantic `ConversationContext` and is never
assigned anywhere in the code base, so `hasattr` is always false for
it; the other three are declared fields, so only the `is None` test
matters. -/
def contextFieldPresent (c : ConversationContext) : ContextField → Bool
  | .customerIntent => false
  | .customerPhone => c.customerPhone.isSome
  | .loanRequest => c.loanRequest.isSome
  | .verificationStatus => c.verificationStatus.isSome

/-- `_run_validation_function`.  Two cases are constant by typing:
`validate_verification_complete` compares the boolean field
`verification_status` with the string literal it is never equal to
(the field is only ever assigned `True`, verification_agent.py line
35), so it always fails; `validate_eligibility_data` tests
`hasattr(context, 'credit_score')`, true for a declared pydantic
field, so it always passes. -/
def runValidationFunction (name : String) (c : ConversationContext) : Bool :=
  if name = "validate_session_start" then true
  else if name = "validate_customer_engagement" then
    decide (2 ≤ c.conversationHistory.length)
  else if name = "validate_loan_requirements" then c.loanRequest.isSome
  else if name = "validate_customer_contact" then !(isFalsyPhone c.customerPhone)
  else if name = "validate_verification_complete" then false
  else if name = "validate_eligibility_data" then true
  else true

/-- `_validate_stage_requirements`: valid iff the missing-requirements
list stays empty, i.e. all required context fields present, the
minimum message count reached and every validation function passing. -/
def validateStageRequirements (stage : ChatStage) (c : ConversationContext) : Bool :=
  (requiredContext stage).all (contextFieldPresent c) &&
  decide (minMessages stage ≤ c.conversationHistory.length) &&
  (validationFunctions stage).all (fun f => runValidationFunction f c)

/-- `_validate_jump_conditions`.  For an underwriting target the
Python code returns `hasattr(context, 'verification_status') or …`,
which is always true for the declared field. -/
def validateJumpConditions (c : ConversationContext) (target : ChatStage) : Bool :=
  if target = .verification && !(isFalsyPhone c.customerPhone) && c.loanRequest.isSome then
    true
  else if target = .underwriting && !(isFalsyPhone c.customerPhone) && c.loanRequest.isSome then
    true
  else false

/-- The typed content of the `(success, message)` strings returned by
`transition_stage` / `_validate_transition`. -/
inductive TransitionMessage where
  | conversationNotFound
  | invalidForward (fromStage toStage : ChatStage)
  | backwardNotAllowed (fromStage toStage : ChatStage)
  | jumpConditionsNotMet (toStage : ChatStage)
  | requirementsNotMet
  | validated
  | success (fromStage toStage : ChatStage)
deriving DecidableEq, Repr

/-- `_validate_transition` (conversation_state_manager.py lines
241-280).  A natural forward transition returns early as valid, before
the stage-requirements check; forward jumps, backward transitions and
jumps fall through to the stage-requirements check; the remaining
transition kinds have no branch of their own and only the
stage-requirements check applies. -/
def validateTransition (current newStage : ChatStage)
    (transitionType : StateTransition) (c : ConversationContext) :
    Bool × TransitionMessage :=
  let requirementsGate : Bool × TransitionMessage :=
    if validateStageRequirements newStage c then (true, .validated)
    else (false, .requirementsNotMet)
  match transitionType with
  | .forward =>
      if naturalFlow current = some newStage then (true, .validated)
      else if newStage ∈ allowedJumps current then requirementsGate
      else (false, .invalidForward current newStage)
  | .backward =>
      if newStage ∈ backwardAllowed current then requirementsGate
      else (false, .backwardNotAllowed current newStage)
  | .jump =>
      if validateJumpConditions c newStage then requirementsGate
      else (false, .jumpConditionsNotMet newStage)
  | _ => requirementsGate

/-- `_check_escalation_conditions`: scans the last three messages for
frustration markers (one flag appended per matching user message),
counts transitions, checks elapsed time, and marks the conversation
escalated when any flag is set.  Only metadata is touched. -/
def checkEscalationConditions (t : ℤ) (c : ConversationContext) : ConversationContext :=
  let md := c.metadata
  let frustrationFlags :=
    if c.conversationHistory.isEmpty then []
    else
      ((lastN 3 c.conversationHistory).filter (fun m => m.sender = "user")).filterMap
        (fun m =>
          if userFrustrationWords.any (fun w => strContains m.message.toLower w) then
            some "user_frustration"
          else none)
  let flags1 := mdStrListD md "escalation_flags" ++ frustrationFlags
  let flags2 := flags1 ++
    (if 3 < mdNatD md "transition_count" then ["repeated_failures"] else [])
  let flags3 := flags2 ++
    (match alistGet md "start_time" with
     | some (.mTime s) => if 1800 < t - s then ["time_threshold"] else []
     | _ => [])
  let md1 := alistSet md "escalation_flags" (.mStrList flags3)
  if flags3.isEmpty then { c with metadata := md1 }
  else { c with metadata := alistSet md1 "conversation_state" (.mState .escalated) }

/-- `_check_abandonment_conditions`: thirty minutes without activity
marks the conversation abandoned (metadata only). -/
def checkAbandonmentConditions (t : ℤ) (c : ConversationContext) : ConversationContext :=
  match alistGet c.metadata "last_activity" with
  | some (.mTime la) =>
      if 1800 < t - la then
        { c with metadata := alistSet c.metadata "conversation_state" (.mState .abandoned) }
      else c
  | _ => c

/-- `_check_conversation_conditions`: completion (the approved and
rejected stages are the keys of `completion_conditions`), then
escalation, then abandonment — none of which touches the stage. -/
def checkConversationConditions (t : ℤ) (c : ConversationContext) : ConversationContext :=
  let c1 :=
    if c.currentStage = .approved ∨ c.currentStage = .rejected then
      { c with metadata := alistSet c.metadata "conversation_state" (.mState .completed) }
    else c
  checkAbandonmentConditions t (checkEscalationConditions t c1)

/-- The manager's two stores.  The audit snapshot history and the
aggregate metrics dicts are write-only telemetry no verified property
observes and are omitted. -/
structure ManagerState where
  activeConversations : List (String × ConversationContext)
  pausedConversations : List (String × (ℤ × ConversationContext))
deriving DecidableEq, Repr

/-- The metadata `initialize_conversation` installs on a new context. -/
def initialSMMetadata (t : ℤ) : Metadata :=
  [ ("conversation_state", .mState .active)
  , ("start_time", .mTime t)
  , ("last_activity", .mTime t)
  , ("transition_count", .mNat 0)
  , ("escalation_flags", .mStrList [])
  , ("user_satisfaction_indicators", .mQList [])
  , ("agent_confidence_scores", .mQList []) ]

/-- `initialize_conversation` for a given session id: a fresh context
at the greeting stage, registered in the active store. -/
def initializeConversation (t : ℤ) (st : ManagerState) (sessionId : String) :
    ConversationContext × ManagerState :=
  let c : ConversationContext :=
    { sessionId := sessionId
      customerPhone := none
      customerData := []
      loanRequest := none
      verificationStatus := none
      creditScore := none
      preApprovedLimit := none
      underwritingResult := none
      salarySlipUploaded := none
      conversationHistory := []
      currentStage := .greeting
      metadata := initialSMMetadata t }
  (c, { st with activeConversations := alistSet st.activeConversations sessionId c })

/-- `transition_stage` (conversation_state_manager.py lines 189-239):
look up the active conversation, validate, and on success set the new
stage, refresh the activity timestamp, bump the transition counter and
run the completion/escalation/abandonment checks.  A failed validation
returns before any mutation.  (The optional `context_updates` argument
and the audit snapshot are not modelled: no verified property passes
updates or reads the snapshot history.) -/
def transitionStage (t : ℤ) (st : ManagerState) (sessionId : String)
    (newStage : ChatStage) (transitionType : StateTransition) :
    (Bool × TransitionMessage) × ManagerState :=
  match alistGet st.activeConversations sessionId with
  | none => ((false, .conversationNotFound), st)
  | some c =>
      let v := validateTransition c.currentStage newStage transitionType c
      if v.1 then
        let oldStage := c.currentStage
        let c1 := { c with currentStage := newStage }
        let c2 := { c1 with metadata := alistSet c1.metadata "last_activity" (.mTime t) }
        let md3 := alistSet c2.metadata "transition_count"
          (.mNat (mdNatD c2.metadata "transition_count" + 1))
        let c3 := { c2 with metadata := md3 }
        let c4 := checkConversationConditions t c3
        ((true, .success oldStage newStage),
          { st with activeConversations := alistSet st.activeConversations sessionId c4 })
      else ((false, v.2), st)

/-- `pause_conversation` (lines 476-495): move the context to the
paused store stamped with the pause time, marking it paused with the
pause reason. -/
def pauseConversation (t : ℤ) (st : ManagerState) (sessionId : String) (reason : String) :
    Bool × ManagerState :=
  match alistGet st.activeConversations sessionId with
  | none => (false, st)
  | some c =>
      let md1 := alistSet (alistSet c.metadata "conversation_state" (.mState .paused))
        "pause_reason" (.mStr reason)
      let c1 := { c with metadata := md1 }
      (true,
        { st with
          activeConversations := alistRemove st.activeConversations sessionId,
          pausedConversations := alistSet st.pausedConversations sessionId (t, c1) })

/-- `resume_conversation` (lines 497-519): not-found when unknown;
when paused longer than 24 hours the entry is deleted and not-found
returned; otherwise the context is marked active, stamped with
last-activity and resume times, and moved back to the active store. -/
def resumeConversation (t : ℤ) (st : ManagerState) (sessionId : String) :
    Option ConversationContext × ManagerState :=
  match alistGet st.pausedConversations sessionId with
  | none => (none, st)
  | some (pauseTime, c) =>
      if 24 * 3600 < t - pauseTime then
        (none, { st with pausedConversations := alistRemove st.pausedConversations sessionId })
      else
        let md1 := alistSet (alistSet (alistSet c.metadata "conversation_state"
          (.mState .active)) "last_activity" (.mTime t)) "resume_time" (.mTime t)
        let c1 := { c with metadata := md1 }
        (some c1,
          { st with
            activeConversations := alistSet st.activeConversations sessionId c1,
            pausedConversations := alistRemove st.pausedConversations sessionId })

/-! ### Intelligent agent router
(app/services/intelligent_agent_router.py) -/

/-- `AgentCapability` from intelligent_agent_router.py. -/
inductive AgentCapability where
  | customerEngagement
  | technicalQueries
  | complexNegotiations
  | documentVerification
  | riskAssessment
  | emotionalSupport
deriving DecidableEq, Repr

/-- `AgentPerformanceMetrics` (the fields the routing strategies read;
the specialization-scores dict and last-updated timestamp are never
read by any strategy). -/
structure AgentPerformanceMetrics where
  totalRequests : ℕ
  successfulResponses : ℕ
  averageResponseTime : ℚ
  customerSatisfaction : ℚ
  errorCount : ℕ
deriving DecidableEq, Repr

/-- Fresh metrics, as installed for every agent by the router
constructor. -/
def initialPerformanceMetrics : AgentPerformanceMetrics :=
  { totalRequests := 0
    successfulResponses := 0
    averageResponseTime := 0
    customerSatisfaction := 0
    errorCount := 0 }

/-- The router's agent registry keys, in declaration (dict insertion)
order: sales, verification, underwriting. -/
def agentNames : List String := ["sales", "verification", "underwriting"]

/-- `routing_weights` shape. -/
structure RoutingWeights where
  performance : ℚ
  loadBalance : ℚ
  contextMatch : ℚ
  availability : ℚ
deriving DecidableEq, Repr

/-- The default `routing_weights` dict (intelligent_agent_router.py
lines 100-106). -/
def defaultRoutingWeights : RoutingWeights :=
  { performance := 0.4
    loadBalance := 0.2
    contextMatch := 0.3
    availability := 0.1 }

/-- The router's mutable per-agent state: performance metrics,
availability flags, outstanding-load counters and the (adjustable)
routing weights. -/
structure RouterState where
  performanceMetrics : String → AgentPerformanceMetrics
  agentAvailability : String → Bool
  agentLoad : String → ℕ
  routingWeights : RoutingWeights

/-- The fixed capability matrix `_initialize_agent_capabilities`
(every capability is present in each per-agent dict, so the
`.get(capability, 0.0)` default is only reachable for agents outside
the registry). -/
def agentCapabilities : String → AgentCapability → ℚ
  | "sales", .customerEngagement => 0.9
  | "sales", .complexNegotiations => 0.8
  | "sales", .emotionalSupport => 0.7
  | "sales", .technicalQueries => 0.5
  | "sales", .documentVerification => 0.3
  | "sales", .riskAssessment => 0.4
  | "verification", .documentVerification => 0.9
  | "verification", .technicalQueries => 0.8
  | "verification", .riskAssessment => 0.7
  | "verification", .customerEngagement => 0.6
  | "verification", .complexNegotiations => 0.4
  | "verification", .emotionalSupport => 0.5
  | "underwriting", .riskAssessment => 0.9
  | "underwriting", .technicalQueries => 0.8
  | "underwriting", .complexNegotiations => 0.7
  | "underwriting", .documentVerification => 0.6
  | "underwriting", .customerEngagement => 0.5
  | "underwriting", .emotionalSupport => 0.4
  | _, _ => 0

/-- The fields of `_analyze_request_context` that the routing
strategies actually read (the remaining analysis fields — message
length, complexity, urgency, customer profile, previous agents — are
computed but never consulted by `_performance_based_routing`,
`_load_balanced_routing`, `_context_aware_routing` or
`_hybrid_routing`). -/
structure ContextAnalysis where
  requiredCapabilities : List AgentCapability
  contextStage : ChatStage
  emotionalTone : String
deriving DecidableEq, Repr

/-- `RoutingDecision` (the rationale field is a human-readable
f-string never branched on; it is omitted). -/
structure RoutingDecision where
  selectedAgent : String
  confidenceScore : ℚ
  alternativeAgents : List String
  expectedPerformance : ℚ
  routingStrategy : RoutingStrategy
deriving DecidableEq, Repr

/-- `successful_responses / max(total_requests, 1)`. -/
def successRate (m : AgentPerformanceMetrics) : ℚ :=
  (m.successfulResponses : ℚ) / ((max m.totalRequests 1 : ℕ) : ℚ)

/-- `1.0 - error_count / max(total_requests, 1)`. -/
def perfErrorTerm (m : AgentPerformanceMetrics) : ℚ :=
  1 - (m.errorCount : ℚ) / ((max m.totalRequests 1 : ℕ) : ℚ)

/-- The per-agent performance score of `_performance_based_routing`:
`success_rate * 0.4 + satisfaction * 0.4 + error_rate * 0.2`. -/
def performanceScore (m : AgentPerformanceMetrics) : ℚ :=
  successRate m * 0.4 + m.customerSatisfaction * 0.4 + perfErrorTerm m * 0.2

/-- The best-agent loop of `_performance_based_routing`: scan agents in
declaration order, keeping the first available agent whose score
strictly beats the running best (initially none at score 0). -/
def perfFold (st : RouterState) : Option String × ℚ :=
  agentNames.foldl
    (fun acc a =>
      let s := performanceScore (st.performanceMetrics a)
      if acc.2 < s ∧ st.agentAvailability a = true then (some a, s) else acc)
    (none, 0)

/-- Stable descending insertion (Python `sorted(key=…, reverse=True)`
keeps declaration order among ties). -/
def insertDescBy (f : String → ℚ) (a : String) : List String → List String
  | [] => [a]
  | b :: bs => if f b ≤ f a then a :: b :: bs else b :: insertDescBy f a bs

/-- Stable descending sort by a score. -/
def sortDescBy (f : String → ℚ) (l : List String) : List String :=
  l.foldr (insertDescBy f) []

/-- Stable ascending insertion (Python `sorted(key=…)`). -/
def insertAscBy (f : String → ℕ) (a : String) : List String → List String
  | [] => [a]
  | b :: bs => if f a ≤ f b then a :: b :: bs else b :: insertAscBy f a bs

/-- Stable ascending sort by a load. -/
def sortAscBy (f : String → ℕ) (l : List String) : List String :=
  l.foldr (insertAscBy f) []

/-- `_performance_based_routing` (lines 376-417). -/
def performanceBasedRouting (st : RouterState) : RoutingDecision :=
  match perfFold st with
  | (some best, score) =>
      { selectedAgent := best
        confidenceScore := score
        alternativeAgents := sortDescBy (fun a => performanceScore (st.performanceMetrics a))
          (agentNames.filter (fun a => a ≠ best))
        expectedPerformance := score
        routingStrategy := .performanceBased }
  | (none, _) =>
      { selectedAgent := "sales"
        confidenceScore := 0.6
        alternativeAgents := sortDescBy (fun a => performanceScore (st.performanceMetrics a))
          (agentNames.filter (fun a => a ≠ "sales"))
        expectedPerformance := 0.6
        routingStrategy := .performanceBased }

/-- Python `min(l, key=f)` over a nonempty list: the first element of
minimal key (replacement only on a strictly smaller key). -/
def minLoadFold (f : String → ℕ) (a : String) (l : List String) : String :=
  l.foldl (fun b x => if f x < f b then x else b) a

/-- Python `max(l, key=f)` over a nonempty list: the first element of
maximal key (replacement only on a strictly larger key). -/
def maxScoreFold (f : String → ℚ) (a : String) (l : List String) : String :=
  l.foldl (fun b x => if f b < f x then x else b) a

/-- `max(self.agent_load.values())` (the registry is nonempty, the
`else 0` guard is unreachable). -/
def maxLoadValue (st : RouterState) : ℕ :=
  (agentNames.map st.agentLoad).foldl max 0

/-- `_load_balanced_routing` (lines 419-450): the least-loaded among
available agents (least-loaded overall when none is available), with
a load-derived confidence floored at 0.3. -/
def loadBalancedRouting (st : RouterState) : RoutingDecision :=
  let available := agentNames.filter (fun a => st.agentAvailability a)
  let best :=
    match available with
    | [] =>
        match agentNames with
        | [] => "sales"
        | a :: rest => minLoadFold st.agentLoad a rest
    | a :: rest => minLoadFold st.agentLoad a rest
  let currentLoad := st.agentLoad best
  let confidence :=
    max (1 - (currentLoad : ℚ) / ((max (maxLoadValue st) 1 : ℕ) : ℚ)) 0.3
  { selectedAgent := best
    confidenceScore := confidence
    alternativeAgents := sortAscBy st.agentLoad (agentNames.filter (fun a => a ≠ best))
    expectedPerformance := 0.7
    routingStrategy := .loadBalanced }

/-- The per-agent score of `_context_aware_routing`: a 0.4 stage-owner
bonus, capability overlap (mean matrix score of the required
capabilities, weighted 0.6) and a 0.2 emotional bonus for the sales
agent. -/
def contextScore (an : ContextAnalysis) (agent : String) : ℚ :=
  let stageBonus : ℚ :=
    if an.contextStage = .sales ∧ agent = "sales" then 0.4
    else if an.contextStage = .verification ∧ agent = "verification" then 0.4
    else if an.contextStage = .underwriting ∧ agent = "underwriting" then 0.4
    else 0
  let capScore : ℚ :=
    if an.requiredCapabilities.isEmpty then 0
    else ((an.requiredCapabilities.map (agentCapabilities agent)).sum /
      (an.requiredCapabilities.length : ℚ)) * 0.6
  let emoBonus : ℚ :=
    if (an.emotionalTone = "frustrated" ∨ an.emotionalTone = "concerned") ∧
        agent = "sales" then 0.2
    else 0
  stageBonus + capScore + emoBonus

/-- `_context_aware_routing` (lines 452-506). -/
def contextAwareRouting (an : ContextAnalysis) : RoutingDecision :=
  let best :=
    match agentNames with
    | [] => "sales"
    | a :: rest => maxScoreFold (contextScore an) a rest
  { selectedAgent := best
    confidenceScore := min (contextScore an best) 1
    alternativeAgents := sortDescBy (contextScore an) (agentNames.filter (fun a => a ≠ best))
    expectedPerformance := contextScore an best
    routingStrategy := .contextAware }

/-- The per-agent score loop of `_hybrid_routing` (lines 516-538):
each sub-strategy contributes its weighted confidence only to the
agent it selected, plus a flat availability term. -/
def hybridScore (st : RouterState) (an : ContextAnalysis) (agent : String) : ℚ :=
  (if (performanceBasedRouting st).selectedAgent = agent then
    (performanceBasedRouting st).confidenceScore * st.routingWeights.performance else 0) +
  (if (loadBalancedRouting st).selectedAgent = agent then
    (loadBalancedRouting st).confidenceScore * st.routingWeights.loadBalance else 0) +
  (if (contextAwareRouting an).selectedAgent = agent then
    (contextAwareRouting an).confidenceScore * st.routingWeights.contextMatch else 0) +
  (if st.agentAvailability agent then st.routingWeights.availability else 0)

/-- `_hybrid_routing` (lines 508-569). -/
def hybridRouting (st : RouterState) (an : ContextAnalysis) : RoutingDecision :=
  let best :=
    match agentNames with
    | [] => "sales"
    | a :: rest => maxScoreFold (hybridScore st an) a rest
  { selectedAgent := best
    confidenceScore := min (hybridScore st an best) 1
    alternativeAgents := sortDescBy (hybridScore st an) (agentNames.filter (fun a => a ≠ best))
    expectedPerformance := hybridScore st an best * 0.8
    routingStrategy := .hybrid }

/-- Modelled from the spec: the hybrid score the specification
describes — a weighted sum, for each responder, of that responder's
scores under the three strategies plus an availability term.  The
code computes no per-responder load-based score, so the load component
here applies the load strategy's confidence formula to each responder
individually. -/
def specLoadScore (st : RouterState) (agent : String) : ℚ :=
  max (1 - (st.agentLoad agent : ℚ) / ((max (maxLoadValue st) 1 : ℕ) : ℚ)) 0.3

/-- Modelled from the spec: weighted sum of per-responder strategy
scores (see `specLoadScore`). -/
def specHybridScore (st : RouterState) (an : ContextAnalysis) (agent : String) : ℚ :=
  st.routingWeights.performance * performanceScore (st.performanceMetrics agent) +
  st.routingWeights.loadBalance * specLoadScore st agent +
  st.routingWeights.contextMatch * contextScore an agent +
  (if st.agentAvailability agent then st.routingWeights.availability else 0)

/-- An agent's `process` call, abstracted as a function from message
and context to an optional reply (`none` models a raised exception). -/
def AgentBehavior : Type := String → ConversationContext → Option ChatResponse

/-- The router's agent registry `self.agents` (intelligent_agent_router.py
lines 76-80), parameterized by the three agents' behaviors. -/
def routerAgents (bSales bVerification bUnderwriting : AgentBehavior) :
    List (String × AgentBehavior) :=
  [("sales", bSales), ("verification", bVerification), ("underwriting", bUnderwriting)]

/-- `_estimate_satisfaction` (lines 664-677). -/
def estimateSatisfaction (r : ChatResponse) : ℚ :=
  let s1 : ℚ := 0.7 + (if 50 < r.message.length then 0.1 else 0)
  let s2 : ℚ := s1 + (if r.requiresInput = false ∨ r.stage ≠ .greeting then 0.1 else 0)
  min s2 1

/-- `_update_agent_performance` (lines 627-662). -/
def updateAgentPerformance (metrics : String → AgentPerformanceMetrics)
    (name : String) (success : Bool) (executionTime : ℚ)
    (response : Option ChatResponse) : String → AgentPerformanceMetrics :=
  let m := metrics name
  let m1 := { m with totalRequests := m.totalRequests + 1 }
  let m2 :=
    if success then { m1 with successfulResponses := m1.successfulResponses + 1 }
    else { m1 with errorCount := m1.errorCount + 1 }
  let m3 :=
    if m2.averageResponseTime = 0 then { m2 with averageResponseTime := executionTime }
    else { m2 with averageResponseTime :=
      (m2.averageResponseTime * ((m2.totalRequests : ℚ) - 1) + executionTime) /
        (m2.totalRequests : ℚ) }
  let m4 :=
    match success, response with
    | true, some r =>
        let est := estimateSatisfaction r
        if m3.customerSatisfaction = 0 then { m3 with customerSatisfaction := est }
        else { m3 with customerSatisfaction :=
          (m3.customerSatisfaction * ((m3.successfulResponses : ℚ) - 1) + est) /
            (m3.successfulResponses : ℚ) }
    | _, _ => m3
  fun n => if n = name then m4 else metrics n

/-- The fixed apology reply of `execute_with_agent` (lines 619-625). -/
def apologyReply (c : ConversationContext) : ChatResponse :=
  { sessionId := c.sessionId
    message := "I apologize for the technical difficulty. Please try again."
    stage := c.currentStage
    requiresInput := true
    options := none
    fileUpload := false
    final := false
    metadata := none }

/-- The `except` block of `execute_with_agent` (lines 609-625): one
retry against the first alternate (its registry lookup and call both
inside the inner try), else the apology reply; metrics pass through. -/
def executeFallback (agents : List (String × AgentBehavior))
    (metrics : String → AgentPerformanceMetrics) (decision : RoutingDecision)
    (msg : String) (c : ConversationContext) :
    ChatResponse × (String → AgentPerformanceMetrics) :=
  match decision.alternativeAgents with
  | [] => (apologyReply c, metrics)
  | alt :: _ =>
      match alistGet agents alt with
      | none => (apologyReply c, metrics)
      | some b =>
          match b msg c with
          | some r => (r, metrics)
          | none => (apologyReply c, metrics)

/-- `execute_with_agent` (lines 571-625).  The `self.agents[...]`
lookup of the selected agent sits outside the try block, so a missing
registry key propagates (`none` result).  A successful call whose
reply carries a metadata dict gets the routing decision recorded in
it; a reply with `None` metadata makes the `.update` call raise inside
the try block, which the except path treats like an agent failure. -/
def executeWithAgent (agents : List (String × AgentBehavior))
    (metrics : String → AgentPerformanceMetrics) (executionTime : ℚ)
    (decision : RoutingDecision) (msg : String) (c : ConversationContext) :
    Option (ChatResponse × (String → AgentPerformanceMetrics)) :=
  match alistGet agents decision.selectedAgent with
  | none => none
  | some b =>
      match b msg c with
      | some r =>
          let m1 := updateAgentPerformance metrics decision.selectedAgent true
            executionTime (some r)
          match r.metadata with
          | some md =>
              some ({ r with metadata := some (alistSet md "routing_decision"
                (.mRoutingInfo decision.selectedAgent decision.confidenceScore
                  decision.routingStrategy)) }, m1)
          | none =>
              some (executeFallback agents
                (updateAgentPerformance m1 decision.selectedAgent false executionTime none)
                decision msg c)
      | none =>
          some (executeFallback agents
            (updateAgentPerformance metrics decision.selectedAgent false executionTime none)
            decision msg c)

/-- A router state with all loads tied at 0, every agent available,
fresh metrics except a satisfaction score that makes the verification
agent the performance leader. -/
def c6TieState : RouterState :=
  { performanceMetrics := fun a =>
      if a = "verification" then
        { initialPerformanceMetrics with customerSatisfaction := 1 }
      else initialPerformanceMetrics
    agentAvailability := fun _ => true
    agentLoad := fun _ => 0
    routingWeights := defaultRoutingWeights }

/-- A router state with loads 5 / 1 / 3 on sales / verification /
underwriting, everything else fresh. -/
def c6LoadState : RouterState :=
  { performanceMetrics := fun _ => initialPerformanceMetrics
    agentAvailability := fun _ => true
    agentLoad := fun a => if a = "sales" then 5 else if a = "verification" then 1 else 3
    routingWeights := defaultRoutingWeights }

/-- A freshly constructed router: zero metrics, zero loads, all
available, default weights. -/
def freshRouterState : RouterState :=
  { performanceMetrics := fun _ => initialPerformanceMetrics
    agentAvailability := fun _ => true
    agentLoad := fun _ => 0
    routingWeights := defaultRoutingWeights }

/-- A context analysis with no detected capabilities, greeting stage,
neutral tone. -/
def neutralAnalysis : ContextAnalysis :=
  { requiredCapabilities := []
    contextStage := .greeting
    emotionalTone := "neutral" }

/-- A concrete context for the router execution witnesses. -/
def w8Ctx : ConversationContext := (initializeConversation 0 ⟨[], []⟩ "w8").1

/-- A concrete reply returned by the alternate agent in the router
execution witnesses. -/
def w8Reply : ChatResponse :=
  { sessionId := "w8"
    message := "ok"
    stage := .greeting
    requiresInput := true
    options := none
    fileUpload := false
    final := false
    metadata := none }

/-- A concrete routing decision selecting the sales agent with the
other two agents as ranked alternates. -/
def w8Decision : RoutingDecision :=
  { selectedAgent := "sales"
    confidenceScore := 1
    alternativeAgents := ["verification", "underwriting"]
    expectedPerformance := 1
    routingStrategy := .hybrid }

/-! ### Agent orchestrator
(app/services/agent_orchestrator.py) -/

/-- `OrchestrationPattern` from agent_orchestrator.py. -/
inductive OrchestrationPattern where
  | linear
  | conditional
  | parallel
  | chain
  | hybridPattern
  | decisionTree
deriving DecidableEq, Repr

/-- `primary_agent` per stage from the `stage_routing` orchestration
rules (the escalated stage has no entry). -/
def primaryAgent : ChatStage → Option String
  | .greeting => some "master"
  | .sales => some "sales"
  | .verification => some "verification"
  | .underwriting => some "underwriting"
  | .decision => some "underwriting"
  | .salarySlip => some "verification"
  | .approved => some "master"
  | .rejected => some "master"
  | .completed => some "master"
  | .escalated => none

/-- `pattern` per stage from the `stage_routing` orchestration rules. -/
def stagePattern : ChatStage → Option OrchestrationPattern
  | .greeting => some .linear
  | .sales => some .conditional
  | .verification => some .chain
  | .underwriting => some .parallel
  | .decision => some .conditional
  | .salarySlip => some .linear
  | .approved => some .linear
  | .rejected => some .linear
  | .completed => some .linear
  | .escalated => none

/-- The intent keyword table of `_calculate_intent_scores`. -/
def intentKeywords : List (String × List String) :=
  [ ("loan_application", ["loan", "money", "borrow", "credit", "finance"])
  , ("information_seeking", ["how", "what", "when", "where", "why"])
  , ("urgency", ["urgent", "immediate", "asap", "quick", "fast"])
  , ("price_sensitive", ["cheap", "affordable", "rate", "interest", "emi"])
  , ("trust_building", ["safe", "secure", "trust", "reliable", "guarantee"]) ]

/-- `_calculate_intent_scores`: per intent, the fraction of its
keywords occurring in the lowercased text, capped at 1. -/
def calcIntentScores (text : String) : List (String × ℚ) :=
  let tl := text.toLower
  intentKeywords.map (fun p =>
    (p.1, min (((p.2.filter (fun kw => strContains tl kw)).length : ℚ) /
      (p.2.length : ℚ)) 1))

/-- `_analyze_conversation_flow` (agent_orchestrator.py lines 275-298).
A history with fewer than two messages yields the short early-stage
dict; otherwise averages of user/assistant message lengths drive the
complexity/engagement labels.  (Python raises on a side with no
messages; in ℚ that division is 0 — no verified property touches that
case.) -/
def analyzeConversationFlow (h : List HistoryMessage) : FlowAnalysis :=
  if h.length < 2 then
    { stage := "early", complexity := "low", engagement := "high"
      userResponsiveness := none, conversationLength := none }
  else
    let userMessages := h.filter (fun m => m.sender = "user")
    let botMessages := h.filter (fun m => m.sender = "assistant")
    let avgUser : ℚ :=
      ((userMessages.map (fun m => m.message.length)).sum : ℕ) /
        (userMessages.length : ℚ)
    let avgBot : ℚ :=
      ((botMessages.map (fun m => m.message.length)).sum : ℕ) /
        (botMessages.length : ℚ)
    { stage := if 10 < h.length then "advanced" else "developing"
      complexity := if 100 < avgUser then "high" else if 50 < avgUser then "medium" else "low"
      engagement := if 10 < h.length then "high" else if 5 < h.length then "medium" else "low"
      userResponsiveness := some (avgUser / max avgBot 1)
      conversationLength := some h.length }

/-- `_add_conversation_intelligence` (lines 236-253): on a nonempty
history, intent scores over the joined user messages of the last five
entries and a flow analysis are written into the metadata. -/
def addConversationIntelligence (c : ConversationContext) : ConversationContext :=
  if c.conversationHistory.isEmpty then c
  else
    let lastMessages := lastN 5 c.conversationHistory
    let userMessages := (lastMessages.filter (fun m => m.sender = "user")).map
      (fun m => m.message)
    let combined := String.intercalate " " userMessages
    let md1 := alistSet c.metadata "intent_scores" (.mScores (calcIntentScores combined))
    let md2 := alistSet md1 "flow_analysis"
      (.mFlow (analyzeConversationFlow c.conversationHistory))
    { c with metadata := md2 }

/-- The fresh metadata dict `_enrich_context` assigns (lines 215-222). -/
def orchInitialMetadata (t : ℤ) (c : ConversationContext) : Metadata :=
  [ ("conversation_id", .mStr c.sessionId)
  , ("start_time", .mTime t)
  , ("agent_history", .mStrList [])
  , ("confidence_scores", .mScores [])
  , ("escalation_count", .mNat 0)
  , ("context_enrichments", .mStrList []) ]

/-- `_enrich_context` (lines 211-234): the context's metadata is
replaced wholesale by a freshly constructed dict, then conversation
intelligence is added.  (The `context_enrichers` list is created empty
and nothing ever appends to it, so the enricher loop is a no-op.) -/
def enrichContext (t : ℤ) (c : ConversationContext) : ConversationContext :=
  addConversationIntelligence { c with metadata := orchInitialMetadata t c }

/-- `_determine_orchestration_strategy` (lines 300-322). -/
def determineOrchestrationStrategy (c : ConversationContext) : OrchestrationPattern :=
  let stageDefault := (stagePattern c.currentStage).getD .linear
  if c.metadata.isEmpty then stageDefault
  else
    let flowComplexityHigh : Bool :=
      match alistGet c.metadata "flow_analysis" with
      | some (.mFlow f) => decide (f.complexity = "high")
      | _ => false
    let urgencyHigh : Bool :=
      match alistGet c.metadata "intent_scores" with
      | some (.mScores s) => decide ((0.7 : ℚ) < (alistGet s "urgency").getD 0)
      | _ => false
    let engagementLow : Bool :=
      match alistGet c.metadata "flow_analysis" with
      | some (.mFlow f) => decide (f.engagement = "low")
      | _ => false
    if flowComplexityHigh then .decisionTree
    else if urgencyHigh then .chain
    else if engagementLow then .linear
    else stageDefault

/-- `_post_process_response` (lines 568-581): the reply's metadata is
set to a single orchestration-info entry built from the context's
agent history and confidence scores. -/
def postProcessResponse (t : ℤ) (r : ChatResponse) (c : ConversationContext) :
    ChatResponse :=
  { r with metadata := some [("orchestration_info",
      .mOrchInfo (mdStrListD c.metadata "agent_history")
        (mdScoresD c.metadata "confidence_scores") t)] }

/-- The ultimate fallback reply of `_handle_orchestration_error`
(lines 593-599); the message text is rendered in plain ASCII. -/
def fallbackReply (c : ConversationContext) : ChatResponse :=
  { sessionId := c.sessionId
    message := "I apologize, but I am experiencing technical difficulties. Please try again in a moment."
    stage := c.currentStage
    requiresInput := true
    options := none
    fileUpload := false
    final := false
    metadata := none }

/-- The orchestrator's agent registry as installed by
`_initialize_agents` (lines 141-159): exactly sales, verification and
underwriting — no master entry. -/
def initializedAgents (bSales bVerification bUnderwriting : AgentBehavior) :
    List (String × AgentBehavior) :=
  [("sales", bSales), ("verification", bVerification), ("underwriting", bUnderwriting)]

/-- `_handle_orchestration_error` (lines 583-599): retry against
`self.agents["master"]`; a missing key or a raising master agent falls
to the generic fallback reply via the bare except. -/
def handleOrchestrationError (agents : List (String × AgentBehavior)) (msg : String)
    (c : ConversationContext) : ChatResponse :=
  match alistGet agents "master" with
  | none => fallbackReply c
  | some b =>
      match b msg c with
      | some r => r
      | none => fallbackReply c

/-- `orchestrate_conversation` (lines 161-209): enrich the context,
determine the pattern (honoring an explicit override), run the pattern
executor, post-process on success; any exception is handled by
`_handle_orchestration_error`.  Pattern executors are abstracted as a
function returning an optional reply (`none` models a raised
exception). -/
def orchestrateConversation (t : ℤ) (agents : List (String × AgentBehavior))
    (patternOverride : Option OrchestrationPattern)
    (execPattern : OrchestrationPattern → String → ConversationContext → Option ChatResponse)
    (msg : String) (c : ConversationContext) : ChatResponse :=
  let ec := enrichContext t c
  let strat := patternOverride.getD (determineOrchestrationStrategy ec)
  match execPattern strat msg ec with
  | some r => postProcessResponse t r ec
  | none => handleOrchestrationError agents msg ec

/-- A concrete conversation context at the sales stage. -/
def c9Ctx : ConversationContext :=
  { (initializeConversation 0 ⟨[], []⟩ "c9").1 with currentStage := .sales }

/-- A concrete reply the sales agent returns in the C9 scenario. -/
def c9Reply : ChatResponse :=
  { sessionId := "c9"
    message := "handled by sales"
    stage := .sales
    requiresInput := true
    options := none
    fileUpload := false
    final := false
    metadata := none }

/-- A sales-agent behavior that always succeeds with `c9Reply`. -/
def c9SalesBehavior : AgentBehavior := fun _ _ => some c9Reply

/-- A pattern executor that always raises. -/
def failExec : OrchestrationPattern → String → ConversationContext → Option ChatResponse :=
  fun _ _ _ => none

end QuickBot

namespace QuickBot

/-! ### Association-list lemmas -/

theorem alistGet_alistSet_self {α β : Type} [DecidableEq α]
    (l : List (α × β)) (k : α) (v : β) :
    alistGet (alistSet l k v) k = some v := by
  induction l with
  | nil => simp [alistSet, alistGet]
  | cons kv rest ih =>
      obtain ⟨k', v'⟩ := kv
      by_cases h : k' = k
      · simp [alistSet, alistGet, h]
      · simp [alistSet, alistGet, h, ih]

theorem alistGet_alistSet_ne {α β : Type} [DecidableEq α]
    (l : List (α × β)) {k k' : α} (v : β) (h : k' ≠ k) :
    alistGet (alistSet l k v) k' = alistGet l k' := by
  have hkk : ¬ k = k' := fun hh => h (Eq.symm hh)
  induction l with
  | nil =>
      simp only [alistSet, alistGet, if_neg hkk]
  | cons kv rest ih =>
      obtain ⟨a, b⟩ := kv
      by_cases ha : a = k
      · subst ha
        simp only [alistSet, if_pos rfl, alistGet, if_neg hkk]
      · simp only [alistSet, if_neg ha, alistGet]
        by_cases ha' : a = k'
        · rw [if_pos ha', if_pos ha']
        · rw [if_neg ha', if_neg ha', ih]

theorem alistGet_eq_none_of_not_mem {α β : Type} [DecidableEq α]
    {l : List (α × β)} {k : α} (h : k ∉ l.map Prod.fst) :
    alistGet l k = none := by
  induction l with
  | nil => rfl
  | cons kv rest ih =>
      obtain ⟨a, b⟩ := kv
      rw [List.map_cons] at h
      have h1 : ¬ a = k := fun hh => h (hh ▸ List.mem_cons_self a _)
      have h2 : k ∉ rest.map Prod.fst := fun hh => h (List.mem_cons_of_mem _ hh)
      rw [alistGet, if_neg h1]
      exact ih h2

theorem mem_keys_alistSet {α β : Type} [DecidableEq α]
    {l : List (α × β)} {k a : α} {v : β}
    (h : a ∈ (alistSet l k v).map Prod.fst) :
    a ∈ l.map Prod.fst ∨ a = k := by
  induction l with
  | nil =>
      rw [alistSet, List.map_cons, List.map_nil] at h
      rcases List.mem_cons.mp h with h1 | h1
      · exact Or.inr h1
      · exact absurd h1 (List.not_mem_nil a)
  | cons kv rest ih =>
      obtain ⟨a', b'⟩ := kv
      by_cases ha : a' = k
      · subst ha
        rw [alistSet, if_pos rfl, List.map_cons] at h
        rcases List.mem_cons.mp h with h1 | h1
        · exact Or.inr h1
        · exact Or.inl (by rw [List.map_cons]; exact List.mem_cons_of_mem _ h1)
      · rw [alistSet, if_neg ha, List.map_cons] at h
        rcases List.mem_cons.mp h with h1 | h1
        · exact Or.inl (by rw [List.map_cons, h1]; exact List.mem_cons_self a' _)
        · rcases ih h1 with h2 | h2
          · exact Or.inl (by rw [List.map_cons]; exact List.mem_cons_of_mem _ h2)
          · exact Or.inr h2

theorem nodup_keys_alistSet {α β : Type} [DecidableEq α]
    {l : List (α × β)} (k : α) (v : β)
    (h : (l.map Prod.fst).Nodup) :
    ((alistSet l k v).map Prod.fst).Nodup := by
  induction l with
  | nil =>
      rw [alistSet, List.map_cons, List.map_nil]
      exact List.nodup_singleton k
  | cons kv rest ih =>
      obtain ⟨a, b⟩ := kv
      rw [List.map_cons, List.nodup_cons] at h
      by_cases ha : a = k
      · subst ha
        rw [alistSet, if_pos rfl, List.map_cons, List.nodup_cons]
        exact h
      · rw [alistSet, if_neg ha, List.map_cons, List.nodup_cons]
        refine ⟨fun hmem => ?_, ih h.2⟩
        rcases mem_keys_alistSet hmem with h' | h'
        · exact h.1 h'
        · exact ha h'

theorem not_mem_keys_alistRemove {α β : Type} [DecidableEq α]
    {l : List (α × β)} {k : α}
    (h : (l.map Prod.fst).Nodup) :
    k ∉ (alistRemove l k).map Prod.fst := by
  induction l with
  | nil =>
      rw [alistRemove]
      exact List.not_mem_nil k
  | cons kv rest ih =>
      obtain ⟨a, b⟩ := kv
      rw [List.map_cons, List.nodup_cons] at h
      by_cases ha : a = k
      · subst ha
        rw [alistRemove, if_pos rfl]
        exact h.1
      · rw [alistRemove, if_neg ha, List.map_cons]
        intro hmem
        rcases List.mem_cons.mp hmem with h1 | h1
        · exact ha h1.symm
        · exact ih h.2 h1

theorem alistGet_alistRemove_self {α β : Type} [DecidableEq α]
    {l : List (α × β)} {k : α}
    (h : (l.map Prod.fst).Nodup) :
    alistGet (alistRemove l k) k = none :=
  alistGet_eq_none_of_not_mem (not_mem_keys_alistRemove h)

/-! ### State-manager stage-preservation lemmas -/

theorem checkEscalationConditions_currentStage (t : ℤ) (c : ConversationContext) :
    (checkEscalationConditions t c).currentStage = c.currentStage := by
  unfold checkEscalationConditions
  dsimp only
  split_ifs <;> rfl

theorem checkAbandonmentConditions_currentStage (t : ℤ) (c : ConversationContext) :
    (checkAbandonmentConditions t c).currentStage = c.currentStage := by
  unfold checkAbandonmentConditions
  split
  · split_ifs <;> rfl
  · rfl

theorem checkConversationConditions_currentStage (t : ℤ) (c : ConversationContext) :
    (checkConversationConditions t c).currentStage = c.currentStage := by
  unfold checkConversationConditions
  dsimp only
  rw [checkAbandonmentConditions_currentStage, checkEscalationConditions_currentStage]
  split_ifs <;> rfl

/-! ### Helper lemmas about the annuity formula -/

theorem one_lt_onePlusR_pow {r : ℚ} (hr : 0 < r) {n : ℕ} (hn : 1 ≤ n) :
    1 < (1 + r) ^ n := by
  have h1 : (1 : ℚ) < 1 + r := by linarith
  calc (1 : ℚ) = 1 ^ n := (one_pow n).symm
    _ < (1 + r) ^ n := by
        exact pow_lt_pow_left₀ h1 (by norm_num) (by omega)

theorem emiFormula_invEmiFormula {E r : ℚ} (hr : 0 < r) {n : ℕ} (hn : 1 ≤ n) :
    emiFormula (invEmiFormula E r n) r n = E := by
  have hpow : 1 < (1 + r) ^ n := one_lt_onePlusR_pow hr hn
  have h1 : (1 + r) ^ n - 1 ≠ 0 := by linarith
  have h2 : (1 + r) ^ n ≠ 0 := by positivity
  have h3 : r ≠ 0 := ne_of_gt hr
  unfold emiFormula invEmiFormula
  field_simp
  ring

theorem invEmiFormula_emiFormula {P r : ℚ} (hr : 0 < r) {n : ℕ} (hn : 1 ≤ n) :
    invEmiFormula (emiFormula P r n) r n = P := by
  have hpow : 1 < (1 + r) ^ n := one_lt_onePlusR_pow hr hn
  have h1 : (1 + r) ^ n - 1 ≠ 0 := by linarith
  have h2 : (1 + r) ^ n ≠ 0 := by positivity
  have h3 : r ≠ 0 := ne_of_gt hr
  unfold emiFormula invEmiFormula
  field_simp
  ring

/-! ### C1 -/

/-- C1: the underwriting evaluation is a pure function of
(amount, tenure, purpose, creditScore, preApprovedLimit, base rate)
whose result is exactly: credit score below 700 rejects with the
below-minimum-score reason and EMI 0; otherwise an amount within the
pre-approved limit is approved; an amount above the limit but within
twice the limit is not approved, flagged requires-salary-slip, with the
EMI still computed and populated; and an amount above twice the limit
is rejected with a reason referencing the 2 × preApprovedLimit
ceiling. -/
theorem evaluateLoan_tiers (loanAmount : ℚ) (tenure : ℕ) (purpose : LoanPurpose)
    (creditScore : ℤ) (preApprovedLimit : ℚ) (baseRate : ℚ)
    (hpl : 0 ≤ preApprovedLimit) :
    (creditScore < 700 →
      (evaluateLoan loanAmount tenure purpose creditScore preApprovedLimit baseRate).approved = false ∧
      (evaluateLoan loanAmount tenure purpose creditScore preApprovedLimit baseRate).reason =
        .belowMinimumScore creditScore ∧
      (evaluateLoan loanAmount tenure purpose creditScore preApprovedLimit baseRate).emi = 0) ∧
    (700 ≤ creditScore → loanAmount ≤ preApprovedLimit →
      (evaluateLoan loanAmount tenure purpose creditScore preApprovedLimit baseRate).approved = true) ∧
    (700 ≤ creditScore → preApprovedLimit < loanAmount → loanAmount ≤ 2 * preApprovedLimit →
      (evaluateLoan loanAmount tenure purpose creditScore preApprovedLimit baseRate).approved = false ∧
      (evaluateLoan loanAmount tenure purpose creditScore preApprovedLimit baseRate).requiresSalarySlip = true ∧
      (evaluateLoan loanAmount tenure purpose creditScore preApprovedLimit baseRate).emi =
        emiFormula loanAmount (rateFor purpose baseRate / 1200) tenure) ∧
    (700 ≤ creditScore → 2 * preApprovedLimit < loanAmount →
      (evaluateLoan loanAmount tenure purpose creditScore preApprovedLimit baseRate).approved = false ∧
      (evaluateLoan loanAmount tenure purpose creditScore preApprovedLimit baseRate).requiresSalarySlip = false ∧
      (evaluateLoan loanAmount tenure purpose creditScore preApprovedLimit baseRate).reason =
        .exceedsMaxLimit loanAmount (2 * preApprovedLimit)) := by
  unfold evaluateLoan emiFormula
  refine ⟨?_, ?_, ?_, ?_⟩
  · intro h
    rw [if_pos h]
    exact ⟨rfl, rfl, rfl⟩
  · intro h hle
    rw [if_neg (by omega), if_pos hle]
  · intro h hlt hle
    rw [if_neg (by omega), if_neg (not_le.mpr hlt), if_pos hle]
    refine ⟨rfl, rfl, ?_⟩
    norm_num
  · intro h hlt
    rw [if_neg (by omega), if_neg (by intro hc; linarith), if_neg (not_le.mpr hlt)]
    exact ⟨rfl, rfl, rfl⟩

/-- Witness for C1: a concrete run through each hypothesis-guarded tier. -/
theorem evaluateLoan_tiers_witness :
    (evaluateLoan 300000 24 .personal 650 400000 10).approved = false ∧
    (evaluateLoan 300000 24 .personal 720 400000 10).approved = true ∧
    (evaluateLoan 500000 24 .personal 720 400000 10).requiresSalarySlip = true ∧
    (evaluateLoan 900000 24 .personal 720 400000 10).approved = false := by
  refine ⟨?_, ?_, ?_, ?_⟩
  · exact ((evaluateLoan_tiers 300000 24 .personal 650 400000 10 (by norm_num)).1
      (by norm_num)).1
  · exact (evaluateLoan_tiers 300000 24 .personal 720 400000 10 (by norm_num)).2.1
      (by norm_num) (by norm_num)
  · exact ((evaluateLoan_tiers 500000 24 .personal 720 400000 10 (by norm_num)).2.2.1
      (by norm_num) (by norm_num) (by norm_num)).2.1
  · exact ((evaluateLoan_tiers 900000 24 .personal 720 400000 10 (by norm_num)).2.2.2
      (by norm_num) (by norm_num)).1

/-! ### C3 -/

/-- C3 counterexample: at P = 500000, annual rate 12.5 percent
(monthly r = 12.5/1200) and n = 60 the annuity formula gives
EMI = 11248.96911…, which is not within 1 of the claimed 11243. -/
theorem emi_at_500000_not_near_11243 :
    ¬ |emiFormula 500000 (12.5 / 1200) 60 - 11243| ≤ 1 := by
  have h : (11244 : ℚ) < emiFormula 500000 (12.5 / 1200) 60 := by
    unfold emiFormula
    norm_num
  intro hc
  rw [abs_le] at hc
  linarith [hc.2]

/-- C3 amended: the EMI computed by the underwriting evaluation equals
the reducing-balance annuity formula with r = rate/1200 and n = tenure;
for P = 500000, rate = 12.5 percent, n = 60 the EMI is approximately
11249 (within 1; exactly 11248.96911…, not 11243), and applying the
inverse formula to that EMI at the same rate and tenure recovers P
exactly. -/
theorem emi_formula_and_roundTrip :
    (∀ (loanAmount : ℚ) (tenure : ℕ) (purpose : LoanPurpose) (creditScore : ℤ)
        (preApprovedLimit baseRate : ℚ), 700 ≤ creditScore →
      (evaluateLoan loanAmount tenure purpose creditScore preApprovedLimit baseRate).emi =
        emiFormula loanAmount (rateFor purpose baseRate / 1200) tenure) ∧
    |emiFormula 500000 (12.5 / 1200) 60 - 11249| ≤ 1 ∧
    invEmiFormula (emiFormula 500000 (12.5 / 1200) 60) (12.5 / 1200) 60 = 500000 := by
  refine ⟨?_, ?_, ?_⟩
  · intro loanAmount tenure purpose creditScore preApprovedLimit baseRate h
    unfold evaluateLoan emiFormula
    rw [if_neg (by omega)]
    split_ifs <;> norm_num
  · rw [abs_le]
    constructor
    · unfold emiFormula
      norm_num
    · unfold emiFormula
      norm_num
  · exact invEmiFormula_emiFormula (by norm_num) (by norm_num)

/-- Witness for C3 amended: the hypothesis-guarded conjunct evaluated at a
concrete input. -/
theorem emi_formula_and_roundTrip_witness :
    (700 : ℤ) ≤ 720 ∧
    (evaluateLoan 500000 60 .personal 720 400000 12.5).emi =
      emiFormula 500000 (rateFor .personal 12.5 / 1200) 60 :=
  ⟨by norm_num, emi_formula_and_roundTrip.1 500000 60 .personal 720 400000 12.5 (by norm_num)⟩

/-! ### C4 -/

/-- C4: the salary-verification second pass approves the pending loan
iff the previously computed EMI is at most half the monthly salary;
when it rejects it computes (by inverting the annuity formula) and
surfaces as a suggestion the maximum loan amount whose EMI at the same
rate and tenure equals half the salary; no suggestion is surfaced on
approval. -/
theorem processSalaryVerification_spec (res : UnderwritingResult) (salary : ℚ)
    (hr : 0 < res.interestRate) (hn : 1 ≤ res.tenure) :
    ((processSalaryVerification res salary).result.approved = true ↔
      res.emi ≤ 0.5 * salary) ∧
    (¬ res.emi ≤ 0.5 * salary →
      ∃ A, (processSalaryVerification res salary).suggestedAmount = some A ∧
        emiFormula A (res.interestRate / 1200) res.tenure = 0.5 * salary) ∧
    (res.emi ≤ 0.5 * salary →
      (processSalaryVerification res salary).suggestedAmount = none) := by
  have hcomm : salary * 0.5 = 0.5 * salary := by ring
  unfold processSalaryVerification
  dsimp only
  split_ifs with h
  · rw [hcomm] at h
    exact ⟨by simp [h], fun hc => absurd h hc, fun _ => rfl⟩
  · rw [hcomm] at h
    refine ⟨by simp [h], fun _ => ?_, fun hc => absurd hc h⟩
    refine ⟨_, rfl, ?_⟩
    have hr' : 0 < res.interestRate / (12 * 100) := by positivity
    have := emiFormula_invEmiFormula (E := salary * 0.5)
      (r := res.interestRate / (12 * 100)) hr' hn
    unfold invEmiFormula at this
    rw [show res.interestRate / 1200 = res.interestRate / (12 * 100) by norm_num]
    rw [this, hcomm]

/-- Witness for C4: a concrete rejection (EMI above half the salary)
and a concrete approval. -/
theorem processSalaryVerification_spec_witness :
    ((processSalaryVerification
        { approved := false, loanAmount := 500000, emi := 11249, interestRate := 12.5,
          tenure := 60, reason := .salarySlipRequired, requiresSalarySlip := true }
        20000).result.approved = true ↔ (11249 : ℚ) ≤ 0.5 * 20000) ∧
    ((processSalaryVerification
        { approved := false, loanAmount := 500000, emi := 11249, interestRate := 12.5,
          tenure := 60, reason := .salarySlipRequired, requiresSalarySlip := true }
        30000).result.approved = true ↔ (11249 : ℚ) ≤ 0.5 * 30000) := by
  constructor
  · exact (processSalaryVerification_spec
      { approved := false, loanAmount := 500000, emi := 11249, interestRate := 12.5,
        tenure := 60, reason := .salarySlipRequired, requiresSalarySlip := true }
      20000 (by norm_num) (by norm_num)).1
  · exact (processSalaryVerification_spec
      { approved := false, loanAmount := 500000, emi := 11249, interestRate := 12.5,
        tenure := 60, reason := .salarySlipRequired, requiresSalarySlip := true }
      30000 (by norm_num) (by norm_num)).1

/-! ### C2 -/

/-- C2 counterexample: on a fresh conversation at the greeting stage
(no messages, no customer intent — the sales-stage entry requirements
are not met) the natural forward transition greeting → sales
nevertheless succeeds, so a natural forward transition does not
require the target stage's entry requirements. -/
theorem naturalForward_succeeds_without_requirements :
    (transitionStage 5 (initializeConversation 0 ⟨[], []⟩ "s1").2 "s1"
        .sales .forward).1.1 = true ∧
    validateStageRequirements .sales (initializeConversation 0 ⟨[], []⟩ "s1").1 = false ∧
    naturalFlow ((initializeConversation 0 ⟨[], []⟩ "s1").1).currentStage = some .sales := by
  refine ⟨by decide, by decide, by decide⟩

/-- C2 amended: a natural forward transition of an active conversation
always succeeds, exempt from the target stage's entry requirements, and
sets the target stage; entry requirements gate only the non-natural
(jump-listed) forward transitions — a successful non-natural forward
transition implies the target was in the allow-listed jump set and its
entry requirements held; and every denied transition leaves the manager
state (in particular the conversation's stage) unchanged. -/
theorem transitionStage_forward_and_denied :
    (∀ (t : ℤ) (st : ManagerState) (sid : String) (c : ConversationContext)
        (S' : ChatStage),
      alistGet st.activeConversations sid = some c →
      naturalFlow c.currentStage = some S' →
      (transitionStage t st sid S' .forward).1.1 = true ∧
      ∃ c', alistGet (transitionStage t st sid S' .forward).2.activeConversations sid =
          some c' ∧ c'.currentStage = S') ∧
    (∀ (t : ℤ) (st : ManagerState) (sid : String) (tgt : ChatStage)
        (ty : StateTransition),
      (transitionStage t st sid tgt ty).1.1 = false →
      (transitionStage t st sid tgt ty).2 = st) ∧
    (∀ (t : ℤ) (st : ManagerState) (sid : String) (c : ConversationContext)
        (tgt : ChatStage),
      alistGet st.activeConversations sid = some c →
      naturalFlow c.currentStage ≠ some tgt →
      (transitionStage t st sid tgt .forward).1.1 = true →
      tgt ∈ allowedJumps c.currentStage ∧ validateStageRequirements tgt c = true) := by
  refine ⟨?_, ?_, ?_⟩
  · intro t st sid c S' hc hnat
    have hv : validateTransition c.currentStage S' .forward c = (true, .validated) := by
      unfold validateTransition
      dsimp only
      rw [if_pos hnat]
    unfold transitionStage
    rw [hc]
    dsimp only
    rw [hv]
    dsimp only
    rw [if_pos rfl]
    refine ⟨rfl, _, alistGet_alistSet_self _ _ _, ?_⟩
    rw [checkConversationConditions_currentStage]
  · intro t st sid tgt ty
    unfold transitionStage
    cases hl : alistGet st.activeConversations sid with
    | none => intro _; rfl
    | some c =>
        dsimp only
        by_cases hv : (validateTransition c.currentStage tgt ty c).1 = true
        · rw [if_pos hv]
          intro h
          exact absurd h (by simp)
        · rw [if_neg hv]
          intro _
          rfl
  · intro t st sid c tgt hc hnat hsucc
    unfold transitionStage at hsucc
    rw [hc] at hsucc
    dsimp only at hsucc
    by_cases hv : (validateTransition c.currentStage tgt .forward c).1 = true
    · unfold validateTransition at hv
      dsimp only at hv
      rw [if_neg hnat] at hv
      by_cases hj : tgt ∈ allowedJumps c.currentStage
      · rw [if_pos hj] at hv
        refine ⟨hj, ?_⟩
        by_cases hr : validateStageRequirements tgt c = true
        · exact hr
        · rw [if_neg hr] at hv
          exact absurd hv (by simp)
      · rw [if_neg hj] at hv
        exact absurd hv (by simp)
    · rw [if_neg hv] at hsucc
      exact absurd hsucc (by simp)

/-- Witness for C2 amended: the natural-forward conjunct applied to a
concrete fresh conversation. -/
theorem transitionStage_forward_and_denied_witness :
    (transitionStage 1 (initializeConversation 0 ⟨[], []⟩ "w2").2 "w2"
        .sales .forward).1.1 = true :=
  (transitionStage_forward_and_denied.1 1 (initializeConversation 0 ⟨[], []⟩ "w2").2
    "w2" (initializeConversation 0 ⟨[], []⟩ "w2").1 .sales (by decide) (by decide)).1

/-! ### C5 -/

/-- C5 counterexample: pausing a fresh conversation at time 0 and
resuming at time 100 (well within the 24-hour window) returns a
context, but not one equal field-for-field to the context at the
moment of pause — the resumed context's metadata has gained
pause-reason, last-activity and resume-time entries. -/
theorem resume_within_window_changes_context :
    (100 : ℤ) - 0 ≤ 24 * 3600 ∧
    ((resumeConversation 100 (pauseConversation 0
        (initializeConversation 0 ⟨[], []⟩ "s5").2 "s5" "user_request").2 "s5").1).isSome =
      true ∧
    (resumeConversation 100 (pauseConversation 0
        (initializeConversation 0 ⟨[], []⟩ "s5").2 "s5" "user_request").2 "s5").1 ≠
      some (initializeConversation 0 ⟨[], []⟩ "s5").1 := by
  refine ⟨by norm_num, by decide, by decide⟩

/-- C5 amended: pause followed by resume within the 24-hour window
returns a context agreeing with the context at the moment of pause on
every field except the metadata map, which differs only at the four
bookkeeping keys conversation-state, pause-reason, last-activity and
resume-time; resume more than 24 hours after pause returns not-found,
deletes the paused entry, and every later resume also returns
not-found (the context is permanently discarded). -/
theorem pauseResume_spec
    (t t' : ℤ) (st : ManagerState) (sid reason : String) (c : ConversationContext)
    (hc : alistGet st.activeConversations sid = some c)
    (hnd : (st.pausedConversations.map Prod.fst).Nodup) :
    (t' - t ≤ 24 * 3600 →
      ∃ c', (resumeConversation t' (pauseConversation t st sid reason).2 sid).1 = some c' ∧
        c'.sessionId = c.sessionId ∧
        c'.customerPhone = c.customerPhone ∧
        c'.customerData = c.customerData ∧
        c'.loanRequest = c.loanRequest ∧
        c'.verificationStatus = c.verificationStatus ∧
        c'.creditScore = c.creditScore ∧
        c'.preApprovedLimit = c.preApprovedLimit ∧
        c'.underwritingResult = c.underwritingResult ∧
        c'.salarySlipUploaded = c.salarySlipUploaded ∧
        c'.conversationHistory = c.conversationHistory ∧
        c'.currentStage = c.currentStage ∧
        ∀ k, k ≠ "conversation_state" → k ≠ "pause_reason" → k ≠ "last_activity" →
          k ≠ "resume_time" → alistGet c'.metadata k = alistGet c.metadata k) ∧
    (24 * 3600 < t' - t →
      (resumeConversation t' (pauseConversation t st sid reason).2 sid).1 = none ∧
      ∀ t'', (resumeConversation t''
        (resumeConversation t' (pauseConversation t st sid reason).2 sid).2 sid).1 =
          none) := by
  unfold pauseConversation
  rw [hc]
  dsimp only
  unfold resumeConversation
  rw [alistGet_alistSet_self]
  dsimp only
  constructor
  · intro hle
    rw [if_neg (by omega)]
    dsimp only
    refine ⟨_, rfl, rfl, rfl, rfl, rfl, rfl, rfl, rfl, rfl, rfl, rfl, rfl, ?_⟩
    intro k h1 h2 h3 h4
    rw [alistGet_alistSet_ne _ _ h4, alistGet_alistSet_ne _ _ h3,
      alistGet_alistSet_ne _ _ h1, alistGet_alistSet_ne _ _ h2,
      alistGet_alistSet_ne _ _ h1]
  · intro hgt
    rw [if_pos hgt]
    dsimp only
    have hnone := alistGet_alistRemove_self
      (l := alistSet st.pausedConversations sid
        (t, { c with metadata := alistSet (alistSet c.metadata "conversation_state"
          (.mState .paused)) "pause_reason" (.mStr reason) }))
      (k := sid) (nodup_keys_alistSet _ _ hnd)
    refine ⟨rfl, fun t'' => ?_⟩
    rw [hnone]

/-! ### Router evaluation lemmas -/

theorem loadBalanced_allZero (st : RouterState)
    (hav : ∀ a, st.agentAvailability a = true) (hld : ∀ a, st.agentLoad a = 0) :
    (loadBalancedRouting st).selectedAgent = "sales" ∧
    (loadBalancedRouting st).confidenceScore = 1 := by
  have hfil : agentNames.filter (fun a => st.agentAvailability a) = agentNames :=
    List.filter_eq_self.mpr (fun a _ => hav a)
  unfold loadBalancedRouting
  dsimp only
  rw [hfil]
  constructor
  · simp [agentNames, minLoadFold, hld]
  · simp only [agentNames, minLoadFold, maxLoadValue, List.foldl_cons, List.foldl_nil,
      List.map_cons, List.map_nil, hld]
    norm_num

theorem performanceScore_initial : performanceScore initialPerformanceMetrics = 0.2 := by
  norm_num [performanceScore, successRate, perfErrorTerm, initialPerformanceMetrics]

theorem perfFold_fresh : perfFold freshRouterState = (some "sales", 0.2) := by
  unfold perfFold
  have hm : ∀ a, freshRouterState.performanceMetrics a = initialPerformanceMetrics :=
    fun a => rfl
  simp only [agentNames, List.foldl_cons, List.foldl_nil, hm, performanceScore_initial]
  norm_num [freshRouterState]

theorem performanceBasedRouting_fresh :
    (performanceBasedRouting freshRouterState).selectedAgent = "sales" ∧
    (performanceBasedRouting freshRouterState).confidenceScore = 0.2 := by
  unfold performanceBasedRouting
  rw [perfFold_fresh]
  exact ⟨rfl, rfl⟩

theorem contextScore_neutral (a : String) : contextScore neutralAnalysis a = 0 := by
  simp [contextScore, neutralAnalysis]

theorem contextAwareRouting_neutral :
    (contextAwareRouting neutralAnalysis).selectedAgent = "sales" ∧
    (contextAwareRouting neutralAnalysis).confidenceScore = 0 := by
  unfold contextAwareRouting
  dsimp only
  constructor
  · simp [agentNames, maxScoreFold, contextScore_neutral]
  · have hsel : maxScoreFold (contextScore neutralAnalysis) "sales"
        ["verification", "underwriting"] = "sales" := by
      simp [maxScoreFold, contextScore_neutral]
    simp only [agentNames]
    rw [hsel, contextScore_neutral]
    norm_num

theorem hybridScore_fresh_eval :
    hybridScore freshRouterState neutralAnalysis "sales" = 0.38 ∧
    hybridScore freshRouterState neutralAnalysis "verification" = 0.1 ∧
    hybridScore freshRouterState neutralAnalysis "underwriting" = 0.1 := by
  have hlz := loadBalanced_allZero freshRouterState (fun a => rfl) (fun a => rfl)
  have hpf := performanceBasedRouting_fresh
  have hca := contextAwareRouting_neutral
  refine ⟨?_, ?_, ?_⟩
  · unfold hybridScore
    rw [hpf.1, hpf.2, hlz.1, hlz.2, hca.1, hca.2]
    simp only [if_pos (show ("sales" : String) = "sales" from rfl)]
    norm_num [freshRouterState, defaultRoutingWeights]
  · unfold hybridScore
    rw [hpf.1, hpf.2, hlz.1, hlz.2, hca.1, hca.2]
    simp only [if_neg (show ¬ ("sales" : String) = "verification" by decide)]
    norm_num [freshRouterState, defaultRoutingWeights]
  · unfold hybridScore
    rw [hpf.1, hpf.2, hlz.1, hlz.2, hca.1, hca.2]
    simp only [if_neg (show ¬ ("sales" : String) = "underwriting" by decide)]
    norm_num [freshRouterState, defaultRoutingWeights]

/-! ### C6 -/

/-- C6 counterexample: with all three loads tied (at 0) and the
verification agent strictly ahead in performance score, the
load-based strategy still selects the sales agent — ties are broken
by declaration order, not by score-based order. -/
theorem loadTie_not_broken_by_score :
    (loadBalancedRouting c6TieState).selectedAgent = "sales" ∧
    c6TieState.agentLoad "sales" = c6TieState.agentLoad "verification" ∧
    performanceScore (c6TieState.performanceMetrics "sales") <
      performanceScore (c6TieState.performanceMetrics "verification") ∧
    ("sales" : String) ≠ "verification" := by
  refine ⟨(loadBalanced_allZero c6TieState (fun a => rfl) (fun a => rfl)).1, rfl, ?_,
    by decide⟩
  have hs : c6TieState.performanceMetrics "sales" = initialPerformanceMetrics := rfl
  have hv : c6TieState.performanceMetrics "verification" =
      { initialPerformanceMetrics with customerSatisfaction := 1 } := rfl
  rw [hs, hv]
  norm_num [performanceScore, successRate, perfErrorTerm, initialPerformanceMetrics]

/-- C6 amended: when every responder is available the load-based
strategy selects the responder with the lowest outstanding-load
counter, breaking ties by declaration (registry insertion) order —
not by score-based order; in particular with loads 5 / 1 / 3 it
selects the responder with load 1 (the verification agent). -/
theorem loadBalancedRouting_min_first (st : RouterState)
    (hav : ∀ a ∈ agentNames, st.agentAvailability a = true) :
    ((loadBalancedRouting st).selectedAgent ∈ agentNames) ∧
    (∀ a ∈ agentNames,
      st.agentLoad (loadBalancedRouting st).selectedAgent ≤ st.agentLoad a) ∧
    (st.agentLoad "sales" ≤ st.agentLoad "verification" →
      st.agentLoad "sales" ≤ st.agentLoad "underwriting" →
      (loadBalancedRouting st).selectedAgent = "sales") ∧
    (st.agentLoad "verification" < st.agentLoad "sales" →
      st.agentLoad "verification" ≤ st.agentLoad "underwriting" →
      (loadBalancedRouting st).selectedAgent = "verification") ∧
    (st.agentLoad "underwriting" < st.agentLoad "sales" →
      st.agentLoad "underwriting" < st.agentLoad "verification" →
      (loadBalancedRouting st).selectedAgent = "underwriting") ∧
    (st.agentLoad "sales" = 5 → st.agentLoad "verification" = 1 →
      st.agentLoad "underwriting" = 3 →
      (loadBalancedRouting st).selectedAgent = "verification") := by
  have hfil : agentNames.filter (fun a => st.agentAvailability a) = agentNames :=
    List.filter_eq_self.mpr (fun a ha => hav a ha)
  have hsel : (loadBalancedRouting st).selectedAgent =
      minLoadFold st.agentLoad "sales" ["verification", "underwriting"] := by
    unfold loadBalancedRouting
    dsimp only
    rw [hfil]
    rfl
  refine ⟨?_, ?_, ?_, ?_, ?_, ?_⟩
  · rw [hsel]
    simp only [minLoadFold, List.foldl_cons, List.foldl_nil]
    split_ifs <;> decide
  · intro a ha
    rw [hsel]
    simp only [minLoadFold, List.foldl_cons, List.foldl_nil]
    fin_cases ha <;> split_ifs <;> omega
  · intro h1 h2
    rw [hsel]
    simp only [minLoadFold, List.foldl_cons, List.foldl_nil]
    split_ifs <;> first | rfl | (exfalso; omega)
  · intro h1 h2
    rw [hsel]
    simp only [minLoadFold, List.foldl_cons, List.foldl_nil]
    split_ifs <;> first | rfl | (exfalso; omega)
  · intro h1 h2
    rw [hsel]
    simp only [minLoadFold, List.foldl_cons, List.foldl_nil]
    split_ifs <;> first | rfl | (exfalso; omega)
  · intro e1 e2 e3
    rw [hsel]
    simp only [minLoadFold, List.foldl_cons, List.foldl_nil]
    split_ifs <;> first | rfl | (exfalso; omega)

/-- Witness for C6 amended: the loads-[5,1,3] conjunct at a concrete
state. -/
theorem loadBalancedRouting_min_first_witness :
    (loadBalancedRouting c6LoadState).selectedAgent = "verification" :=
  (loadBalancedRouting_min_first c6LoadState (by decide)).2.2.2.2.2
    (by decide) (by decide) (by decide)

/-! ### C7 -/

/-- C7 counterexample: on a freshly constructed router with default
weights and a neutral analysis, the verification agent's hybrid score
is 0.1 (availability term only), whereas the spec's weighted sum of
its per-strategy scores is 0.38 — the code's hybrid score is a
winner-take-weight vote, not a weighted sum of every responder's
strategy scores. -/
theorem hybridScore_not_weighted_sum :
    hybridScore freshRouterState neutralAnalysis "verification" = 0.1 ∧
    specHybridScore freshRouterState neutralAnalysis "verification" = 0.38 ∧
    (0.1 : ℚ) ≠ 0.38 := by
  refine ⟨hybridScore_fresh_eval.2.1, ?_, by norm_num⟩
  have hps : performanceScore (freshRouterState.performanceMetrics "verification") = 0.2 :=
    performanceScore_initial
  unfold specHybridScore specLoadScore maxLoadValue
  rw [hps, contextScore_neutral]
  norm_num [freshRouterState, defaultRoutingWeights, agentNames]

/-- C7 amended: each responder's hybrid score is the sum, over the
three sub-strategies, of that strategy's weighted confidence if (and
only if) the responder is the one that strategy selected, plus an
availability term; the default weights are 0.4 / 0.2 / 0.3 / 0.1
(performance / load / context-match / availability); and the router
selects the responder maximizing this score, breaking ties by
declaration order. -/
theorem hybridRouting_vote_and_max (st : RouterState) (an : ContextAnalysis) :
    (∀ agent, hybridScore st an agent =
      (if (performanceBasedRouting st).selectedAgent = agent then
        (performanceBasedRouting st).confidenceScore * st.routingWeights.performance
       else 0) +
      (if (loadBalancedRouting st).selectedAgent = agent then
        (loadBalancedRouting st).confidenceScore * st.routingWeights.loadBalance
       else 0) +
      (if (contextAwareRouting an).selectedAgent = agent then
        (contextAwareRouting an).confidenceScore * st.routingWeights.contextMatch
       else 0) +
      (if st.agentAvailability agent then st.routingWeights.availability else 0)) ∧
    defaultRoutingWeights =
      { performance := 0.4, loadBalance := 0.2, contextMatch := 0.3,
        availability := 0.1 } ∧
    ((hybridRouting st an).selectedAgent ∈ agentNames) ∧
    (∀ a ∈ agentNames,
      hybridScore st an a ≤ hybridScore st an (hybridRouting st an).selectedAgent) ∧
    (hybridScore st an "verification" ≤ hybridScore st an "sales" →
      hybridScore st an "underwriting" ≤ hybridScore st an "sales" →
      (hybridRouting st an).selectedAgent = "sales") ∧
    (hybridScore st an "sales" < hybridScore st an "verification" →
      hybridScore st an "underwriting" ≤ hybridScore st an "verification" →
      (hybridRouting st an).selectedAgent = "verification") ∧
    (hybridScore st an "sales" < hybridScore st an "underwriting" →
      hybridScore st an "verification" < hybridScore st an "underwriting" →
      (hybridRouting st an).selectedAgent = "underwriting") := by
  have hsel : (hybridRouting st an).selectedAgent =
      maxScoreFold (hybridScore st an) "sales" ["verification", "underwriting"] := rfl
  refine ⟨fun agent => rfl, rfl, ?_, ?_, ?_, ?_, ?_⟩
  · rw [hsel]
    simp only [maxScoreFold, List.foldl_cons, List.foldl_nil]
    split_ifs <;> decide
  · intro a ha
    rw [hsel]
    simp only [maxScoreFold, List.foldl_cons, List.foldl_nil]
    fin_cases ha <;> split_ifs <;> linarith
  · intro h1 h2
    rw [hsel]
    simp only [maxScoreFold, List.foldl_cons, List.foldl_nil]
    split_ifs <;> first | rfl | (exfalso; linarith)
  · intro h1 h2
    rw [hsel]
    simp only [maxScoreFold, List.foldl_cons, List.foldl_nil]
    split_ifs <;> first | rfl | (exfalso; linarith)
  · intro h1 h2
    rw [hsel]
    simp only [maxScoreFold, List.foldl_cons, List.foldl_nil]
    split_ifs <;> first | rfl | (exfalso; linarith)

/-- Witness for C7 amended: on the fresh router with a neutral
analysis the sales agent maximizes the hybrid score and is selected. -/
theorem hybridRouting_vote_and_max_witness :
    (hybridRouting freshRouterState neutralAnalysis).selectedAgent = "sales" :=
  (hybridRouting_vote_and_max freshRouterState neutralAnalysis).2.2.2.2.1
    (by rw [hybridScore_fresh_eval.1, hybridScore_fresh_eval.2.1]; norm_num)
    (by rw [hybridScore_fresh_eval.1, hybridScore_fresh_eval.2.2]; norm_num)

/-! ### C8 -/

theorem executeFallback_metrics (agents : List (String × AgentBehavior))
    (m : String → AgentPerformanceMetrics) (d : RoutingDecision) (msg : String)
    (c : ConversationContext) :
    (executeFallback agents m d msg c).2 = m := by
  unfold executeFallback
  split
  · rfl
  · split
    · rfl
    · split <;> rfl

theorem updateAgentPerformance_fail_errorCount
    (metrics : String → AgentPerformanceMetrics) (name : String) (dt : ℚ) :
    (updateAgentPerformance metrics name false dt none name).errorCount =
      (metrics name).errorCount + 1 := by
  unfold updateAgentPerformance
  dsimp only
  rw [if_pos rfl]
  split_ifs <;> first | rfl | contradiction

/-- C8: for every routing decision whose chosen responder is in the
registry, execution never propagates an exception (the result is
always a reply); if the chosen responder raises, its error count is
incremented and the request is retried exactly once against the
top-ranked alternate from the decision — the alternate's reply is
returned if it succeeds, and otherwise (alternate raising, alternate
missing from the registry, or no alternates at all) the fixed apology
reply is returned, well-formed with the conversation's current stage
and session id. -/
theorem executeWithAgent_spec (agents : List (String × AgentBehavior))
    (metrics : String → AgentPerformanceMetrics) (dt : ℚ) (decision : RoutingDecision)
    (msg : String) (c : ConversationContext) (b : AgentBehavior)
    (hb : alistGet agents decision.selectedAgent = some b) :
    (executeWithAgent agents metrics dt decision msg c).isSome = true ∧
    (b msg c = none →
      ∀ reply m', executeWithAgent agents metrics dt decision msg c = some (reply, m') →
        (m' decision.selectedAgent).errorCount =
          (metrics decision.selectedAgent).errorCount + 1 ∧
        (∀ alt rest, decision.alternativeAgents = alt :: rest →
          (∀ b' r, alistGet agents alt = some b' → b' msg c = some r → reply = r) ∧
          (∀ b', alistGet agents alt = some b' → b' msg c = none →
            reply = apologyReply c) ∧
          (alistGet agents alt = none → reply = apologyReply c)) ∧
        (decision.alternativeAgents = [] → reply = apologyReply c)) ∧
    (apologyReply c).stage = c.currentStage ∧
    (apologyReply c).sessionId = c.sessionId := by
  refine ⟨?_, ?_, rfl, rfl⟩
  · unfold executeWithAgent
    rw [hb]
    dsimp only
    cases hbr : b msg c with
    | some r =>
        dsimp only
        cases hmd : r.metadata <;> rfl
    | none => rfl
  · intro hnone reply m' heq
    unfold executeWithAgent at heq
    rw [hb] at heq
    dsimp only at heq
    rw [hnone] at heq
    have heq' : executeFallback agents
        (updateAgentPerformance metrics decision.selectedAgent false dt none)
        decision msg c = (reply, m') := Option.some.inj heq
    have hsnd : m' =
        updateAgentPerformance metrics decision.selectedAgent false dt none := by
      have := congrArg Prod.snd heq'
      rw [executeFallback_metrics] at this
      exact this.symm
    have hfst : (executeFallback agents
        (updateAgentPerformance metrics decision.selectedAgent false dt none)
        decision msg c).1 = reply := congrArg Prod.fst heq'
    refine ⟨?_, ?_, ?_⟩
    · rw [hsnd]
      exact updateAgentPerformance_fail_errorCount metrics decision.selectedAgent dt
    · intro alt rest halts
      unfold executeFallback at hfst
      rw [halts] at hfst
      dsimp only at hfst
      refine ⟨?_, ?_, ?_⟩
      · intro b' r hb' hr
        rw [hb'] at hfst
        dsimp only at hfst
        rw [hr] at hfst
        exact hfst.symm
      · intro b' hb' hr
        rw [hb'] at hfst
        dsimp only at hfst
        rw [hr] at hfst
        exact hfst.symm
      · intro hmiss
        rw [hmiss] at hfst
        exact hfst.symm
    · intro hemp
      unfold executeFallback at hfst
      rw [hemp] at hfst
      exact hfst.symm

/-- Witness for C8: the chosen sales agent raises, the verification
alternate replies, and execution returns a reply. -/
theorem executeWithAgent_spec_witness :
    (executeWithAgent
      (routerAgents (fun _ _ => none) (fun _ _ => some w8Reply) (fun _ _ => none))
      (fun _ => initialPerformanceMetrics) 1 w8Decision "hi" w8Ctx).isSome = true :=
  (executeWithAgent_spec
    (routerAgents (fun _ _ => none) (fun _ _ => some w8Reply) (fun _ _ => none))
    (fun _ => initialPerformanceMetrics) 1 w8Decision "hi" w8Ctx
    (fun _ _ => none) rfl).1

/-! ### C9 -/

theorem addConversationIntelligence_fields (c : ConversationContext) :
    (addConversationIntelligence c).currentStage = c.currentStage ∧
    (addConversationIntelligence c).sessionId = c.sessionId := by
  unfold addConversationIntelligence
  split_ifs <;> exact ⟨rfl, rfl⟩

theorem enrichContext_fields (t : ℤ) (c : ConversationContext) :
    (enrichContext t c).currentStage = c.currentStage ∧
    (enrichContext t c).sessionId = c.sessionId := by
  unfold enrichContext
  exact addConversationIntelligence_fields _

/-- C9 counterexample: at the sales stage the canonical responder is
the sales agent; with a sales agent that succeeds and a pattern
execution that raises, the orchestrator still returns the generic
fallback reply — the error-path retry targets the fixed key
"master" (absent from the registry), not the stage's canonical
responder. -/
theorem orchestration_retry_not_canonical :
    primaryAgent c9Ctx.currentStage = some "sales" ∧
    c9SalesBehavior "hi" (enrichContext 0 c9Ctx) = some c9Reply ∧
    orchestrateConversation 0
        (initializedAgents c9SalesBehavior (fun _ _ => none) (fun _ _ => none))
        none failExec "hi" c9Ctx = fallbackReply (enrichContext 0 c9Ctx) ∧
    fallbackReply (enrichContext 0 c9Ctx) ≠ c9Reply := by
  refine ⟨rfl, rfl, rfl, by decide⟩

/-- C9 amended: any exception from a pattern execution is caught
rather than propagated, and the single retry is attempted against the
fixed registry key "master" — which `_initialize_agents` never
installs, so the retry itself fails and the generic well-formed
fallback reply (current stage preserved, input requested) is always
returned to the caller. -/
theorem orchestrationError_generic_fallback :
    (∀ bs bv bu : AgentBehavior,
      alistGet (initializedAgents bs bv bu) "master" = none) ∧
    (∀ (t : ℤ) (bs bv bu : AgentBehavior)
        (patternOverride : Option OrchestrationPattern)
        (exec : OrchestrationPattern → String → ConversationContext → Option ChatResponse)
        (msg : String) (c : ConversationContext),
      exec (patternOverride.getD (determineOrchestrationStrategy (enrichContext t c)))
          msg (enrichContext t c) = none →
      orchestrateConversation t (initializedAgents bs bv bu) patternOverride exec
          msg c = fallbackReply (enrichContext t c) ∧
      (orchestrateConversation t (initializedAgents bs bv bu) patternOverride exec
          msg c).stage = c.currentStage ∧
      (orchestrateConversation t (initializedAgents bs bv bu) patternOverride exec
          msg c).requiresInput = true) := by
  constructor
  · intro bs bv bu
    rfl
  · intro t bs bv bu patternOverride exec msg c hexec
    have h1 : orchestrateConversation t (initializedAgents bs bv bu) patternOverride
        exec msg c = fallbackReply (enrichContext t c) := by
      unfold orchestrateConversation
      dsimp only
      rw [hexec]
      rfl
    refine ⟨h1, ?_, ?_⟩
    · rw [h1]
      exact (enrichContext_fields t c).1
    · rw [h1]
      rfl

/-- Witness for C9 amended: the failing-pattern conjunct at a concrete
conversation. -/
theorem orchestrationError_generic_fallback_witness :
    orchestrateConversation 1
        (initializedAgents c9SalesBehavior (fun _ _ => none) (fun _ _ => none))
        none failExec "x" c9Ctx = fallbackReply (enrichContext 1 c9Ctx) :=
  (orchestrationError_generic_fallback.2 1 c9SalesBehavior (fun _ _ => none)
    (fun _ _ => none) none failExec "x" c9Ctx rfl).1

/-! ### C10 -/

/-- C10: every call to the orchestrator's main entry point replaces
the context's entire metadata map with a freshly constructed one
before any pattern runs — the orchestration result is independent of
whatever metadata the context carried before the call, and the
enriched context every pattern executor receives has
escalation-count 0. -/
theorem orchestrate_metadata_reset :
    (∀ (t : ℤ) (c : ConversationContext) (m : Metadata)
        (agents : List (String × AgentBehavior))
        (patternOverride : Option OrchestrationPattern)
        (exec : OrchestrationPattern → String → ConversationContext → Option ChatResponse)
        (msg : String),
      orchestrateConversation t agents patternOverride exec msg
          { c with metadata := m } =
        orchestrateConversation t agents patternOverride exec msg c) ∧
    (∀ (t : ℤ) (c : ConversationContext),
      alistGet (enrichContext t c).metadata "escalation_count" = some (.mNat 0)) := by
  constructor
  · intro t c m agents patternOverride exec msg
    have henrich : enrichContext t { c with metadata := m } = enrichContext t c := rfl
    unfold orchestrateConversation
    rw [henrich]
  · intro t c
    unfold enrichContext addConversationIntelligence
    dsimp only
    split_ifs with h
    · rfl
    · rw [alistGet_alistSet_ne _ _ (by decide), alistGet_alistSet_ne _ _ (by decide)]
      rfl

/-- Witness for C5 amended: the expired branch evaluated concretely —
resuming 90000 seconds (25 hours) after the pause returns not-found. -/
theorem pauseResume_spec_witness :
    (resumeConversation 90000 (pauseConversation 0
        (initializeConversation 0 ⟨[], []⟩ "w5").2 "w5" "user_request").2 "w5").1 =
      none :=
  ((pauseResume_spec 0 90000 (initializeConversation 0 ⟨[], []⟩ "w5").2 "w5"
    "user_request" (initializeConversation 0 ⟨[], []⟩ "w5").1 (by decide)
    (by decide)).2 (by norm_num)).1

end QuickBot
